import Mathlib

/-!
Shallow embedding of the Sapphillon-Core sandboxed execution engine
(src/runtime.rs, src/core.rs, src/plugin.rs, src/workflow.rs).

Machine integers that matter to the claims are modelled as `Nat`/`Int`;
the epoch clock reading is a `Nat` of nanoseconds (Rust's
`Duration::as_nanos`), with `as_secs = nanos / 10^9` and
`subsec_nanos = nanos % 10^9`.  The JavaScript engine (deno_core) is an
external collaborator: a script's observable behaviour is modelled as the
sequence of print invocations it performs plus a terminal outcome
(success, or an error carrying the diagnostic message).
-/

namespace Sapphillon

/-- runtime.rs `WorkflowStdout`: a captured output record.  The source
only has the `Stdout` variant (the `Stderr` variant is commented out). -/
inductive WorkflowStdout where
  | Stdout (s : String)
  deriving DecidableEq, Repr

/-- The text carried by a captured output record. -/
def WorkflowStdout.text : WorkflowStdout → String
  | WorkflowStdout.Stdout s => s

/-- runtime.rs `OpStateWorkflowData`: shared execution state visible to
host functions during one run. -/
structure OpStateWorkflowData where
  workflow_id : String
  result : List WorkflowStdout
  capture_stdout : Bool
  deriving DecidableEq, Repr

/-- runtime.rs `OpStateWorkflowData::new`. -/
def OpStateWorkflowData.new (workflow_id : String) (capture_stdout : Bool) :
    OpStateWorkflowData :=
  { workflow_id := workflow_id, result := [], capture_stdout := capture_stdout }

/-- runtime.rs `OpStateWorkflowData::get_workflow_id`. -/
def OpStateWorkflowData.get_workflow_id (d : OpStateWorkflowData) : String :=
  d.workflow_id

/-- runtime.rs `OpStateWorkflowData::add_result`: push the record iff
`capture_stdout` is set. -/
def OpStateWorkflowData.add_result (d : OpStateWorkflowData)
    (stdout : WorkflowStdout) : OpStateWorkflowData :=
  if d.capture_stdout then { d with result := d.result ++ [stdout] } else d

/-- runtime.rs `OpStateWorkflowData::get_results`. -/
def OpStateWorkflowData.get_results (d : OpStateWorkflowData) :
    List WorkflowStdout :=
  d.result

/-- runtime.rs `OpStateWorkflowData::is_capture_stdout`. -/
def OpStateWorkflowData.is_capture_stdout (d : OpStateWorkflowData) : Bool :=
  d.capture_stdout

/-- Modelled from the spec: `stdout_to_string` is called on the shared
state in workflow.rs (`data.lock().unwrap().stdout_to_string()`) but its
definition is not under src/; per the spec it flattens the captured
output buffer to one string, records concatenated in append order. -/
def OpStateWorkflowData.stdout_to_string (d : OpStateWorkflowData) : String :=
  d.result.foldl (fun acc r => acc ++ r.text) ""

/-- A real process output channel (core.rs uses `stdout()` and `stderr()`). -/
inductive Channel where
  | out
  | err
  deriving DecidableEq, Repr

/-- A low-level action on the real channels performed by the print
wrapper in pass-through mode: a write of a string, or a flush.  Each
pass-through write in core.rs is followed immediately by a flush. -/
inductive ChannelAction where
  | write (c : Channel) (s : String)
  | flush (c : Channel)
  deriving DecidableEq, Repr

/-- core.rs `op_print_wrapper`, with the possibility of channel-write
failure made explicit: `wfail c` says whether `write_all` on channel `c`
fails (Rust's `?` then propagates the I/O error).  Returns the updated
shared state together with the real-channel actions performed. -/
def op_print_wrapperE (wfail : Channel → Bool) (data : OpStateWorkflowData)
    (msg : String) (is_err : Bool) :
    Except String (OpStateWorkflowData × List ChannelAction) :=
  if is_err then
    if data.is_capture_stdout then
      Except.ok (data.add_result (WorkflowStdout.Stdout msg), [])
    else if wfail Channel.err then
      Except.error "io error"
    else
      Except.ok (data, [ChannelAction.write Channel.err msg, ChannelAction.flush Channel.err])
  else if data.is_capture_stdout then
    Except.ok (data.add_result (WorkflowStdout.Stdout msg), [])
  else if wfail Channel.out then
    Except.error "io error"
  else
    Except.ok (data, [ChannelAction.write Channel.out msg, ChannelAction.flush Channel.out])

/-- core.rs `op_print_wrapper` under healthy channels (no write ever
fails); this is the version threaded through script execution below. -/
def op_print_wrapper (data : OpStateWorkflowData) (msg : String)
    (is_err : Bool) : OpStateWorkflowData × List ChannelAction :=
  if is_err then
    if data.is_capture_stdout then
      (data.add_result (WorkflowStdout.Stdout msg), [])
    else
      (data, [ChannelAction.write Channel.err msg, ChannelAction.flush Channel.err])
  else if data.is_capture_stdout then
    (data.add_result (WorkflowStdout.Stdout msg), [])
  else
    (data, [ChannelAction.write Channel.out msg, ChannelAction.flush Channel.out])

/-- The implementation behind a registered op binding: the output
interceptor, a plugin-supplied body, or an engine builtin. -/
inductive OpImpl where
  | print_wrapper
  | plugin (id : String)
  | builtin (id : String)
  deriving DecidableEq, Repr

/-- deno_core `OpDecl`, reduced to what the claims observe: the binding
name and which body backs it. -/
structure OpDecl where
  name : String
  impl : OpImpl
  deriving DecidableEq, Repr

/-- The `OpDecl` produced by `op_print_wrapper()` in core.rs.  Per the
spec (the engine boundary, spec sections 4.3 and 6), the middleware
replacement installs the interceptor under the engine's reserved print
binding, here its concrete op name. -/
def op_print_wrapper_decl : OpDecl :=
  { name := "op_print", impl := OpImpl.print_wrapper }

/-- runtime.rs `run_script` middleware: any op named for the engine's
reserved print binding is replaced by the output interceptor; every
other op passes through unchanged. -/
def middleware_fn (op : OpDecl) : OpDecl :=
  if op.name = "op_print" then op_print_wrapper_decl else op

/-- Modelled from the spec: deno_core's own built-in op list is outside
this repository; the spec's engine boundary guarantees a built-in print
binding exists (console-style printing is routed through it), which is
what the middleware overrides.  Other builtins are irrelevant to the
claims and omitted. -/
def builtin_ops : List OpDecl :=
  [{ name := "op_print", impl := OpImpl.builtin "op_print" }]

/-- The op list the engine ends up registering for one `run_script`
call: the builtins together with the supplied extension ops, each passed
through the middleware (an override step after assembly, not a filter). -/
def installed_ops (ext : List OpDecl) : List OpDecl :=
  (builtin_ops ++ ext).map middleware_fn

/-- One observable host-function invocation a running script performs:
a print call with its text and error flag. -/
inductive ScriptEvent where
  | print (msg : String) (is_err : Bool)
  deriving DecidableEq, Repr

/-- The text of a print event. -/
def ScriptEvent.msg : ScriptEvent → String
  | ScriptEvent.print m _ => m

/-- Terminal outcome of executing a script in the isolated context:
runs to completion, or raises with a diagnostic message. -/
inductive ScriptOutcome where
  | ok
  | error (msg : String)
  deriving DecidableEq, Repr

/-- Modelled from the spec: the engine (deno_core) is an opaque external
collaborator; a script's observable behaviour is its sequence of print
invocations plus its terminal outcome. -/
structure ScriptBehavior where
  events : List ScriptEvent
  outcome : ScriptOutcome
  deriving DecidableEq, Repr

/-- Thread one script event through the print wrapper, accumulating the
real-channel actions. -/
def applyEvent (st : OpStateWorkflowData × List ChannelAction)
    (e : ScriptEvent) : OpStateWorkflowData × List ChannelAction :=
  match e with
  | ScriptEvent.print m ie =>
      let p := op_print_wrapper st.1 m ie
      (p.1, st.2 ++ p.2)

/-- runtime.rs `run_script`: install the extension ops (with the
middleware override), put the supplied workflow data into the op state —
or a default `OpStateWorkflowData::new("default_workflow", false)` when
none is supplied — execute the script, and return the shared state (and
channel actions) on success or the diagnostic message on failure. -/
def run_script (behavior : ScriptBehavior) (ext : List OpDecl)
    (workflow_data : Option OpStateWorkflowData) :
    Except String (OpStateWorkflowData × List ChannelAction) :=
  let _ops := installed_ops ext
  let st0 :=
    match workflow_data with
    | some data => data
    | none => OpStateWorkflowData.new "default_workflow" false
  let fin := behavior.events.foldl applyEvent (st0, [])
  match behavior.outcome with
  | ScriptOutcome.ok => Except.ok fin
  | ScriptOutcome.error m => Except.error m

/-- plugin.rs `CorePluginFunction`, its opaque deno op body reduced to
the `OpDecl` model above. -/
structure CorePluginFunction where
  id : String
  name : String
  func : OpDecl
  description : String

/-- plugin.rs `CorePluginPackage`. -/
structure CorePluginPackage where
  id : String
  name : String
  functions : List CorePluginFunction

/-- workflow.rs `run`, lines 62-67: collect the op declarations of all
plugin packages, package order then function order. -/
def collect_ops (pkgs : List CorePluginPackage) : List OpDecl :=
  pkgs.foldl (fun ops pkg => pkg.functions.foldl (fun ops f => ops ++ [f.func]) ops) []

/-- prost `Timestamp` as built in workflow.rs: whole seconds and the
sub-second nanoseconds of the epoch reading (both exact for any
realistic clock value, so modelled without wrap-around). -/
structure Timestamp where
  seconds : Int
  nanos : Int
  deriving DecidableEq, Repr

/-- proto `WorkflowResultType`: the two values used by workflow.rs
(`SuccessUnspecified as i32` and `Failure as i32`). -/
inductive WorkflowResultType where
  | SuccessUnspecified
  | Failure
  deriving DecidableEq, Repr

/-- proto `WorkflowResult` as populated by workflow.rs. -/
structure WorkflowResult where
  id : String
  display_name : String
  description : String
  result : String
  ran_at : Timestamp
  result_type : WorkflowResultType
  exit_code : Int
  workflow_result_revision : Int
  deriving DecidableEq, Repr

/-- The fields of the proto `WorkflowCode` descriptor that
`new_from_proto` reads. -/
structure WorkflowCodeProto where
  id : String
  code : String
  code_revision : Int

/-- workflow.rs `CoreWorkflowCode`. -/
structure CoreWorkflowCode where
  id : String
  code : String
  plugin_packages : List CorePluginPackage
  code_revision : Int
  result : List WorkflowResult

/-- workflow.rs `CoreWorkflowCode::new`. -/
def CoreWorkflowCode.new (id : String) (code : String)
    (plugin_packages : List CorePluginPackage) (code_revision : Int) :
    CoreWorkflowCode :=
  { id := id, code := code, plugin_packages := plugin_packages,
    code_revision := code_revision, result := [] }

/-- workflow.rs `CoreWorkflowCode::new_from_proto`. -/
def CoreWorkflowCode.new_from_proto (workflow_code : WorkflowCodeProto)
    (plugin_packages : List CorePluginPackage) : CoreWorkflowCode :=
  { id := workflow_code.id, code := workflow_code.code,
    plugin_packages := plugin_packages,
    code_revision := workflow_code.code_revision, result := [] }

/-- Rust `Duration::as_secs` of an epoch reading in nanoseconds. -/
def as_secs (epochNanos : Nat) : Nat :=
  epochNanos / 1000000000

/-- Rust `Duration::subsec_nanos` of an epoch reading in nanoseconds. -/
def subsec_nanos (epochNanos : Nat) : Nat :=
  epochNanos % 1000000000

/-- The `WorkflowResult` built by one call of workflow.rs
`CoreWorkflowCode::run` (lines 70-114): metadata derived from the clock
reading, the next revision read off the current history, and the
outcome fields from executing the code with capture enabled. -/
def CoreWorkflowCode.runResult (w : CoreWorkflowCode) (epoch : Nat)
    (behavior : ScriptBehavior) : WorkflowResult :=
  let ops := collect_ops w.plugin_packages
  let id := w.id ++ "-" ++ toString epoch
  let display_name := "Run " ++ toString (as_secs epoch)
  let ran_at : Timestamp :=
    { seconds := Int.ofNat (as_secs epoch),
      nanos := Int.ofNat (subsec_nanos epoch) }
  let workflow_result_revision :=
    (w.result.getLast?.map (fun r => r.workflow_result_revision + 1)).getD 1
  let opstate := OpStateWorkflowData.new w.id true
  let res := run_script behavior ops (some opstate)
  let fields :
      String × String × WorkflowResultType × Int :=
    match res with
    | Except.ok data =>
        ("Success", data.1.stdout_to_string, WorkflowResultType.SuccessUnspecified, 0)
    | Except.error e =>
        ("Error: " ++ e, e, WorkflowResultType.Failure, 1)
  { id := id, display_name := display_name,
    description := fields.1, result := fields.2.1,
    ran_at := ran_at, result_type := fields.2.2.1,
    exit_code := fields.2.2.2,
    workflow_result_revision := workflow_result_revision }

/-- workflow.rs `CoreWorkflowCode::run`.  `epoch` is the clock reading
in nanoseconds since the Unix epoch; `behavior` is the observable
behaviour of executing `self.code` (the engine being opaque).  The
shared state is created with capture always enabled, the script is run,
and exactly one `WorkflowResult` is appended; a script failure becomes a
Failure-typed result, never an error of `run` itself. -/
def CoreWorkflowCode.run (w : CoreWorkflowCode) (epoch : Nat)
    (behavior : ScriptBehavior) : CoreWorkflowCode :=
  { w with result := w.result ++ [w.runResult epoch behavior] }

/-- A finite sequence of `run()` calls, each with its clock reading and
its script behaviour. -/
def CoreWorkflowCode.runSeq (w : CoreWorkflowCode)
    (seq : List (Nat × ScriptBehavior)) : CoreWorkflowCode :=
  seq.foldl (fun w p => w.run p.1 p.2) w

/-- The revision expression of workflow.rs lines 78-82, as a function of
the current history. -/
def nextRevision (rs : List WorkflowResult) : Int :=
  (rs.getLast?.map (fun r => r.workflow_result_revision + 1)).getD 1

/-- The printed texts of a list of script events concatenated in order,
with no separator. -/
def concatMsgs (es : List ScriptEvent) : String :=
  es.foldl (fun acc e => acc ++ e.msg) ""

/-- A throwaway record used as the irrelevant default of `List.getD`. -/
def blankResult : WorkflowResult :=
  { id := "", display_name := "", description := "", result := "",
    ran_at := { seconds := 0, nanos := 0 },
    result_type := WorkflowResultType.SuccessUnspecified,
    exit_code := 0, workflow_result_revision := 0 }

section Helpers

/-- decimal value of one digit character. -/
def decDigitVal (c : Char) : Nat := c.toNat - 48

/-- decimal value of a digit string. -/
def decValue (cs : List Char) : Nat :=
  cs.foldl (fun a c => 10 * a + decDigitVal c) 0

lemma decDigitVal_digitChar : ∀ m : Nat, m < 10 → decDigitVal (Nat.digitChar m) = m := by
  decide

lemma toDigitsCore_append (b : Nat) :
    ∀ (fuel n : Nat) (ds : List Char),
      Nat.toDigitsCore b fuel n ds = Nat.toDigitsCore b fuel n [] ++ ds := by
  intro fuel
  induction fuel with
  | zero => intro n ds; simp [Nat.toDigitsCore]
  | succ f ih =>
    intro n ds
    simp only [Nat.toDigitsCore]
    by_cases h : n / b = 0
    · simp [h]
    · simp only [h, if_false]
      rw [ih (n / b) (Nat.digitChar (n % b) :: ds), ih (n / b) [Nat.digitChar (n % b)]]
      simp

lemma toDigitsCore_fuel :
    ∀ (n f1 f2 : Nat) (ds : List Char), n < f1 → n < f2 →
      Nat.toDigitsCore 10 f1 n ds = Nat.toDigitsCore 10 f2 n ds := by
  intro n
  induction n using Nat.strong_induction_on with
  | _ n ih =>
    intro f1 f2 ds h1 h2
    match f1, f2 with
    | g1 + 1, g2 + 1 =>
      simp only [Nat.toDigitsCore]
      by_cases h : n / 10 = 0
      · simp [h]
      · simp only [h, if_false]
        have hdiv : n / 10 < n := Nat.div_lt_self (by omega) (by omega)
        exact ih (n / 10) hdiv g1 g2 _ (by omega) (by omega)

lemma decValue_append (cs : List Char) (c : Char) :
    decValue (cs ++ [c]) = 10 * decValue cs + decDigitVal c := by
  simp [decValue, List.foldl_append]

lemma decValue_toDigits : ∀ n : Nat, decValue (Nat.toDigits 10 n) = n := by
  intro n
  induction n using Nat.strong_induction_on with
  | _ n ih =>
    simp only [Nat.toDigits, Nat.toDigitsCore]
    by_cases h : n / 10 = 0
    · have hn : n < 10 := by omega
      simp [h, decValue, decDigitVal_digitChar n hn, Nat.mod_eq_of_lt hn]
    · simp only [h, if_false]
      have hdiv : n / 10 < n := Nat.div_lt_self (by omega) (by omega)
      rw [toDigitsCore_append]
      rw [toDigitsCore_fuel (n / 10) n (n / 10 + 1) [] (by omega) (by omega)]
      rw [show Nat.toDigitsCore 10 (n / 10 + 1) (n / 10) [] = Nat.toDigits 10 (n / 10) from rfl]
      rw [decValue_append, ih (n / 10) hdiv]
      have := decDigitVal_digitChar (n % 10) (Nat.mod_lt n (by omega))
      rw [this]
      omega

lemma nat_repr_injective (n m : Nat) (h : Nat.repr n = Nat.repr m) : n = m := by
  have hd : Nat.toDigits 10 n = Nat.toDigits 10 m := by
    have := congrArg String.data h
    simpa [Nat.repr, List.asString] using this
  have := congrArg decValue hd
  rwa [decValue_toDigits, decValue_toDigits] at this

lemma nat_toString_injective (n m : Nat) (h : toString n = toString m) : n = m :=
  nat_repr_injective n m h

lemma hyphen_id_injective (a : String) (n m : Nat)
    (h : a ++ "-" ++ toString n = a ++ "-" ++ toString m) : n = m := by
  apply nat_toString_injective
  have hd := congrArg String.data h
  simp only [String.data_append, List.append_assoc] at hd
  exact String.ext (List.append_cancel_left (List.append_cancel_left hd))

/-- Histories whose i-th entry carries revision i + 1. -/
def revisionsContiguous (rs : List WorkflowResult) : Prop :=
  ∀ (d : WorkflowResult) (i : Nat), i < rs.length →
    (rs.getD i d).workflow_result_revision = i + 1

lemma revisionsContiguous_nil : revisionsContiguous [] := by
  intro d i hi
  simp at hi

lemma nextRevision_nil : nextRevision [] = 1 := rfl

lemma nextRevision_concat (rs : List WorkflowResult) (r : WorkflowResult) :
    nextRevision (rs ++ [r]) = r.workflow_result_revision + 1 := by
  simp [nextRevision, List.getLast?_concat]

lemma revisionsContiguous_concat (rs : List WorkflowResult) (r : WorkflowResult)
    (h : revisionsContiguous rs)
    (hr : r.workflow_result_revision = rs.length + 1) :
    revisionsContiguous (rs ++ [r]) := by
  intro d i hi
  simp only [List.length_append, List.length_singleton] at hi
  rcases Nat.lt_or_ge i rs.length with hlt | hge
  · rw [List.getD_append _ _ _ _ hlt]
    exact h d i hlt
  · have hieq : i = rs.length := by omega
    subst hieq
    rw [List.getD_append_right _ _ _ _ (le_refl _)]
    simpa using hr

/-- The combined history invariant maintained across runs. -/
def historyOk (rs : List WorkflowResult) : Prop :=
  revisionsContiguous rs ∧ nextRevision rs = rs.length + 1

lemma runResult_revision (w : CoreWorkflowCode) (epoch : Nat) (b : ScriptBehavior) :
    (w.runResult epoch b).workflow_result_revision = nextRevision w.result := rfl

lemma run_result_eq (w : CoreWorkflowCode) (epoch : Nat) (b : ScriptBehavior) :
    (w.run epoch b).result = w.result ++ [w.runResult epoch b] := rfl

lemma historyOk_run (w : CoreWorkflowCode) (epoch : Nat) (b : ScriptBehavior)
    (h : historyOk w.result) : historyOk (w.run epoch b).result := by
  obtain ⟨hc, hn⟩ := h
  have hrev : (w.runResult epoch b).workflow_result_revision = w.result.length + 1 := by
    rw [runResult_revision, hn]
  constructor
  · rw [run_result_eq]
    exact revisionsContiguous_concat _ _ hc hrev
  · rw [run_result_eq, nextRevision_concat, hrev]
    simp [List.length_append]

lemma historyOk_runSeq (w : CoreWorkflowCode) (seq : List (Nat × ScriptBehavior))
    (h : historyOk w.result) : historyOk (w.runSeq seq).result := by
  induction seq generalizing w with
  | nil => exact h
  | cons p tl ih =>
    have hstep := historyOk_run w p.1 p.2 h
    exact ih (w.run p.1 p.2) hstep

lemma foldl_applyEvent_capture :
    ∀ (es : List ScriptEvent) (d : OpStateWorkflowData) (acts : List ChannelAction),
      d.capture_stdout = true →
      (es.foldl applyEvent (d, acts)).1.result
          = d.result ++ es.map (fun e => WorkflowStdout.Stdout e.msg) ∧
        (es.foldl applyEvent (d, acts)).1.capture_stdout = true := by
  intro es
  induction es with
  | nil => intro d acts h; simp [h]
  | cons e tl ih =>
    intro d acts h
    match e with
    | ScriptEvent.print m ie =>
      have hstep : applyEvent (d, acts) (ScriptEvent.print m ie)
          = ({ d with result := d.result ++ [WorkflowStdout.Stdout m] }, acts) := by
        cases ie <;>
          simp [applyEvent, op_print_wrapper, OpStateWorkflowData.is_capture_stdout, h,
            OpStateWorkflowData.add_result]
      rw [List.foldl_cons, hstep]
      have := ih { d with result := d.result ++ [WorkflowStdout.Stdout m] } acts (by simp [h])
      obtain ⟨h1, h2⟩ := this
      refine ⟨?_, h2⟩
      rw [h1]
      simp [ScriptEvent.msg]

lemma stdout_to_string_eq (d : OpStateWorkflowData) (es : List ScriptEvent)
    (h : d.result = es.map (fun e => WorkflowStdout.Stdout e.msg)) :
    d.stdout_to_string = concatMsgs es := by
  simp only [OpStateWorkflowData.stdout_to_string, h, concatMsgs, List.foldl_map]
  rfl

end Helpers

/-- C1: a workflow freshly constructed by new or new_from_proto has an
empty history, and after any finite sequence of runs the i-th history
entry carries workflow_result_revision i + 1: revisions are strictly
monotonic, gap-free and 1-indexed. -/
theorem revision_history_contiguous :
    (∀ (id code : String) (pkgs : List CorePluginPackage) (rev : Int),
      (CoreWorkflowCode.new id code pkgs rev).result = []) ∧
    (∀ (p : WorkflowCodeProto) (pkgs : List CorePluginPackage),
      (CoreWorkflowCode.new_from_proto p pkgs).result = []) ∧
    ∀ (w : CoreWorkflowCode), w.result = [] →
      ∀ (seq : List (Nat × ScriptBehavior)) (d : WorkflowResult) (i : Nat),
        i < (w.runSeq seq).result.length →
        ((w.runSeq seq).result.getD i d).workflow_result_revision = i + 1 := by
  refine ⟨fun _ _ _ _ => rfl, fun _ _ => rfl, ?_⟩
  intro w hw seq d i hi
  have h0 : historyOk w.result := by
    rw [hw]
    exact ⟨revisionsContiguous_nil, by simp [nextRevision]⟩
  exact (historyOk_runSeq w seq h0).1 d i hi

/-- Witness for C1 at a concrete workflow and a concrete two-run
sequence: the second history entry carries revision 2. -/
theorem revision_history_contiguous_witness :
    (((CoreWorkflowCode.new "wid" "1+1;" [] 1).runSeq
        [(5, { events := [], outcome := ScriptOutcome.ok }),
         (7, { events := [], outcome := ScriptOutcome.error "fail" })]).result.getD 1
        blankResult).workflow_result_revision = 2 :=
  revision_history_contiguous.2.2 (CoreWorkflowCode.new "wid" "1+1;" [] 1) rfl
    [(5, { events := [], outcome := ScriptOutcome.ok }),
     (7, { events := [], outcome := ScriptOutcome.error "fail" })]
    blankResult 1 (by decide)

/-- C2: run() is total and always appends exactly one result; when the
script fails with diagnostic m, the appended record has description
"Error: " ++ m, result m, result_type Failure and exit_code 1. -/
theorem run_never_errors_on_script_failure (w : CoreWorkflowCode) (epoch : Nat) :
    (∀ b : ScriptBehavior, (w.run epoch b).result.length = w.result.length + 1) ∧
    ∀ (events : List ScriptEvent) (m : String),
      (w.run epoch { events := events, outcome := ScriptOutcome.error m }).result
          = w.result ++ [w.runResult epoch { events := events, outcome := ScriptOutcome.error m }] ∧
      (w.runResult epoch { events := events, outcome := ScriptOutcome.error m }).description
          = "Error: " ++ m ∧
      (w.runResult epoch { events := events, outcome := ScriptOutcome.error m }).result = m ∧
      (w.runResult epoch { events := events, outcome := ScriptOutcome.error m }).result_type
          = WorkflowResultType.Failure ∧
      (w.runResult epoch { events := events, outcome := ScriptOutcome.error m }).exit_code = 1 := by
  constructor
  · intro b
    rw [run_result_eq]
    simp
  · intro events m
    exact ⟨rfl, rfl, rfl, rfl, rfl⟩

/-- C3: the output interceptor implements the four-way dispatch: with
capture enabled it appends a record tagged as standard output for both
values of is_err and touches no real channel; with capture disabled it
leaves the buffer unchanged and writes-then-flushes on the error channel
when is_err is true, on the output channel when is_err is false. -/
theorem print_wrapper_dispatch (d : OpStateWorkflowData) (msg : String) :
    (d.is_capture_stdout = true →
      op_print_wrapper d msg true
          = ({ d with result := d.result ++ [WorkflowStdout.Stdout msg] }, []) ∧
      op_print_wrapper d msg false
          = ({ d with result := d.result ++ [WorkflowStdout.Stdout msg] }, [])) ∧
    (d.is_capture_stdout = false →
      op_print_wrapper d msg true
          = (d, [ChannelAction.write Channel.err msg, ChannelAction.flush Channel.err]) ∧
      op_print_wrapper d msg false
          = (d, [ChannelAction.write Channel.out msg, ChannelAction.flush Channel.out])) := by
  constructor <;> intro h <;>
    rw [show d.is_capture_stdout = d.capture_stdout from rfl] at h <;>
    exact ⟨by simp [op_print_wrapper, OpStateWorkflowData.is_capture_stdout,
        OpStateWorkflowData.add_result, h],
      by simp [op_print_wrapper, OpStateWorkflowData.is_capture_stdout,
        OpStateWorkflowData.add_result, h]⟩

/-- Witness for C3 in the capture-enabled case at a concrete state. -/
theorem print_wrapper_dispatch_witness :
    op_print_wrapper { workflow_id := "w", result := [], capture_stdout := true } "t" true
        = ({ workflow_id := "w", result := [WorkflowStdout.Stdout "t"],
             capture_stdout := true }, []) ∧
    op_print_wrapper { workflow_id := "w", result := [], capture_stdout := true } "t" false
        = ({ workflow_id := "w", result := [WorkflowStdout.Stdout "t"],
             capture_stdout := true }, []) :=
  (print_wrapper_dispatch { workflow_id := "w", result := [], capture_stdout := true } "t").1 rfl

/-- C4: after the middleware override, the interceptor is present under
the reserved print binding for every extension list, every op under that
name is backed by the interceptor (plugin-supplied same-named ops
included), and the override preserves the assembled list's names
one-for-one rather than filtering it. -/
theorem print_binding_precedence (ext : List OpDecl) :
    (∃ op ∈ installed_ops ext, op.name = "op_print" ∧ op.impl = OpImpl.print_wrapper) ∧
    (∀ op ∈ installed_ops ext, op.name = "op_print" → op.impl = OpImpl.print_wrapper) ∧
    (installed_ops ext).map OpDecl.name = (builtin_ops ++ ext).map OpDecl.name := by
  refine ⟨?_, ?_, ?_⟩
  · refine ⟨op_print_wrapper_decl, ?_, rfl, rfl⟩
    simp [installed_ops, builtin_ops, middleware_fn, op_print_wrapper_decl]
  · intro op hop hname
    simp only [installed_ops, List.mem_map] at hop
    obtain ⟨op0, _, rfl⟩ := hop
    by_cases h : op0.name = "op_print"
    · simp [middleware_fn, h, op_print_wrapper_decl]
    · rw [middleware_fn, if_neg h] at hname ⊢
      exact absurd hname h
  · simp only [installed_ops, List.map_map]
    apply List.map_congr_left
    intro op _
    by_cases h : op.name = "op_print" <;>
      simp [middleware_fn, h, op_print_wrapper_decl]

/-- Witness for C4: with a plugin list that itself defines an op under
the reserved name, the installed binding is the interceptor. -/
theorem print_binding_precedence_witness :
    ({ name := "op_print", impl := OpImpl.print_wrapper } : OpDecl).impl
      = OpImpl.print_wrapper :=
  (print_binding_precedence [{ name := "op_print", impl := OpImpl.plugin "p" }]).2.1
    { name := "op_print", impl := OpImpl.print_wrapper } (by decide) rfl

/-- C5: a successful run appends a record with description "Success",
result_type Success, exit_code 0 and result equal to the captured
records concatenated in append order; a run that prints nothing (such as
the script 1+1;) yields result "" and exit_code 0. -/
theorem run_success_fields (w : CoreWorkflowCode) (epoch : Nat) :
    (∀ events : List ScriptEvent,
      (w.run epoch { events := events, outcome := ScriptOutcome.ok }).result
          = w.result ++ [w.runResult epoch { events := events, outcome := ScriptOutcome.ok }] ∧
      (w.runResult epoch { events := events, outcome := ScriptOutcome.ok }).description
          = "Success" ∧
      (w.runResult epoch { events := events, outcome := ScriptOutcome.ok }).result_type
          = WorkflowResultType.SuccessUnspecified ∧
      (w.runResult epoch { events := events, outcome := ScriptOutcome.ok }).exit_code = 0 ∧
      (w.runResult epoch { events := events, outcome := ScriptOutcome.ok }).result
          = concatMsgs events) ∧
    (w.runResult epoch { events := [], outcome := ScriptOutcome.ok }).result = "" ∧
    (w.runResult epoch { events := [], outcome := ScriptOutcome.ok }).exit_code = 0 := by
  have hmain : ∀ events : List ScriptEvent,
      (w.runResult epoch { events := events, outcome := ScriptOutcome.ok }).result
        = concatMsgs events := by
    intro events
    have hf := foldl_applyEvent_capture events (OpStateWorkflowData.new w.id true) [] rfl
    show (List.foldl applyEvent (OpStateWorkflowData.new w.id true, []) events).1.stdout_to_string
        = concatMsgs events
    exact stdout_to_string_eq _ events (by simpa [OpStateWorkflowData.new] using hf.1)
  refine ⟨fun events => ⟨rfl, rfl, rfl, rfl, hmain events⟩, hmain [], rfl⟩

/-- C6: when no execution state is supplied, run_script synthesizes a
default state with workflow_id "default_workflow" and capture disabled,
and that state is the one the print host function reads (pass-through
with the state unchanged); when a state is supplied, that state is the
one the host function reads. -/
theorem default_state_synthesis :
    (∀ (b : ScriptBehavior) (ext : List OpDecl),
      run_script b ext none
        = run_script b ext (some (OpStateWorkflowData.new "default_workflow" false))) ∧
    (OpStateWorkflowData.new "default_workflow" false).get_workflow_id = "default_workflow" ∧
    (OpStateWorkflowData.new "default_workflow" false).is_capture_stdout = false ∧
    (∀ (m : String) (ie : Bool) (ext : List OpDecl),
      run_script { events := [ScriptEvent.print m ie], outcome := ScriptOutcome.ok } ext none
        = Except.ok (OpStateWorkflowData.new "default_workflow" false,
            [ChannelAction.write (if ie then Channel.err else Channel.out) m,
             ChannelAction.flush (if ie then Channel.err else Channel.out)])) ∧
    ∀ (d : OpStateWorkflowData) (m : String) (ie : Bool) (ext : List OpDecl),
      run_script { events := [ScriptEvent.print m ie], outcome := ScriptOutcome.ok } ext (some d)
        = Except.ok (op_print_wrapper d m ie) := by
  refine ⟨fun b ext => rfl, rfl, rfl, ?_, ?_⟩
  · intro m ie ext
    cases ie <;> rfl
  · intro d m ie ext
    rfl

/-- C7: add_result is a no-op on the whole state when capture is
disabled, pushes exactly the given record when capture is enabled, and
the print wrapper mutates the state only through add_result. -/
theorem add_result_frame :
    (∀ (d : OpStateWorkflowData) (r : WorkflowStdout),
      d.capture_stdout = false → d.add_result r = d) ∧
    (∀ (d : OpStateWorkflowData) (r : WorkflowStdout),
      d.capture_stdout = true →
        d.add_result r = { d with result := d.result ++ [r] }) ∧
    ∀ (d : OpStateWorkflowData) (m : String) (ie : Bool),
      (op_print_wrapper d m ie).1 = d ∨
      (op_print_wrapper d m ie).1 = d.add_result (WorkflowStdout.Stdout m) := by
  refine ⟨?_, ?_, ?_⟩
  · intro d r h
    simp [OpStateWorkflowData.add_result, h]
  · intro d r h
    simp [OpStateWorkflowData.add_result, h]
  · intro d m ie
    by_cases h : d.capture_stdout = true <;> cases ie <;>
      simp [op_print_wrapper, OpStateWorkflowData.is_capture_stdout, h]

/-- Witness for C7: on a capture-disabled state, add_result changes
nothing. -/
theorem add_result_frame_witness :
    OpStateWorkflowData.add_result
        { workflow_id := "w", result := [], capture_stdout := false }
        (WorkflowStdout.Stdout "x")
      = { workflow_id := "w", result := [], capture_stdout := false } :=
  add_result_frame.1 { workflow_id := "w", result := [], capture_stdout := false }
    (WorkflowStdout.Stdout "x") rfl

/-- C8: the appended result's id is the workflow id, a hyphen, then the
epoch nanoseconds, and two runs at different nanosecond readings get
different ids. -/
theorem result_id_derivation (w : CoreWorkflowCode) :
    (∀ (epoch : Nat) (b : ScriptBehavior),
      (w.run epoch b).result = w.result ++ [w.runResult epoch b] ∧
      (w.runResult epoch b).id = w.id ++ "-" ++ toString epoch) ∧
    ∀ (n m : Nat) (b1 b2 : ScriptBehavior),
      n ≠ m → (w.runResult n b1).id ≠ (w.runResult m b2).id := by
  refine ⟨fun epoch b => ⟨rfl, rfl⟩, ?_⟩
  intro n m b1 b2 hnm heq
  exact hnm (hyphen_id_injective w.id n m heq)

/-- Witness for C8: two concrete runs one nanosecond apart have
different result ids. -/
theorem result_id_derivation_witness :
    ((CoreWorkflowCode.new "wid" "" [] 1).runResult 1
        { events := [], outcome := ScriptOutcome.ok }).id
      ≠ ((CoreWorkflowCode.new "wid" "" [] 1).runResult 2
          { events := [], outcome := ScriptOutcome.ok }).id :=
  (result_id_derivation (CoreWorkflowCode.new "wid" "" [] 1)).2 1 2
    { events := [], outcome := ScriptOutcome.ok }
    { events := [], outcome := ScriptOutcome.ok } (by decide)

/-- C9: the appended result's display_name is the literal "Run "
followed by the whole seconds of the epoch reading. -/
theorem display_name_derivation (w : CoreWorkflowCode) (epoch : Nat)
    (b : ScriptBehavior) :
    (w.run epoch b).result = w.result ++ [w.runResult epoch b] ∧
    (w.runResult epoch b).display_name = "Run " ++ toString (epoch / 1000000000) :=
  ⟨rfl, rfl⟩

/-- C10: with capture enabled the print wrapper succeeds whatever the
channels do, and an I/O error can only arise with capture disabled. -/
theorem capture_print_never_io_error (wfail : Channel → Bool)
    (d : OpStateWorkflowData) (msg : String) (ie : Bool) :
    (d.is_capture_stdout = true →
      op_print_wrapperE wfail d msg ie = Except.ok (op_print_wrapper d msg ie)) ∧
    ∀ e : String, op_print_wrapperE wfail d msg ie = Except.error e →
      d.is_capture_stdout = false := by
  constructor
  · intro h
    cases ie <;> simp [op_print_wrapperE, op_print_wrapper, h]
  · intro e he
    by_cases h : d.is_capture_stdout = true
    · exfalso
      cases ie <;> simp [op_print_wrapperE, h] at he
    · simpa using h

/-- Witness for C10: on a concrete capture-enabled state, even always
failing channels yield a successful print. -/
theorem capture_print_never_io_error_witness :
    op_print_wrapperE (fun _ => true)
        { workflow_id := "w", result := [], capture_stdout := true } "t" true
      = Except.ok (op_print_wrapper
          { workflow_id := "w", result := [], capture_stdout := true } "t" true) :=
  (capture_print_never_io_error (fun _ => true)
    { workflow_id := "w", result := [], capture_stdout := true } "t" true).1 rfl

end Sapphillon
